import Mathlib

/-!
Verification of the TSDuck section demultiplexer, scrambler plugin and
CA_descriptor code against their natural-language specification.

The definitions below are a shallow embedding of the C++ sources:
  - src/src/libtsduck/tsCADescriptor.cpp
  - src/src/libtsduck/tsSectionDemux.cpp
  - src/src/tsplugins/tsplugin_scrambler.cpp
Bytes are modelled as natural numbers (always reduced modulo 256 where a
C++ uint8_t truncation occurs), byte blocks as lists of naturals.
-/

set_option linter.unusedVariables false

namespace Tsduck

/-! ### MPEG constants (values given in the spec and in tsMPEG.h) -/

def PKT_SIZE : Nat := 188
def CC_MAX : Nat := 16
def PID_NULL : Nat := 0x1FFF
def MAX_PRIVATE_SECTION_SIZE : Nat := 4096
def SHORT_SECTION_HEADER_SIZE : Nat := 3
def MIN_SHORT_SECTION_SIZE : Nat := 3
def MIN_LONG_SECTION_SIZE : Nat := 12
def MAX_DESCRIPTOR_SIZE : Nat := 257
def SC_EVEN_KEY : Nat := 2
def SC_ODD_KEY : Nat := 3
def DID_CA : Nat := 0x09

/-! ### CA_descriptor (tsCADescriptor.cpp) -/

/-- Big-endian 16-bit serialization of a value, truncated to 16 bits,
as performed by ByteBlock::appendUInt16. -/
def toBytes16 (v : Nat) : List Nat :=
  [v / 256 % 256, v % 256]

/-- Big-endian 16-bit read of two consecutive bytes at offset i,
as performed by GetUInt16. -/
def getUInt16 (data : List Nat) (i : Nat) : Nat :=
  data.getD i 0 * 256 + data.getD (i + 1) 0

/-- Embedding of ts::CADescriptor::serialize (tsCADescriptor.cpp lines 82-95):
a 2-byte scratch header, then CA_system_id (16-bit BE), then
0xE000 | (ca_pid & 0x1FFF) (16-bit BE), then the private data; finally
byte 0 is set to the tag and byte 1 to uint8_t(total size - 2).
The uint8_t cast is the modulo-256 truncation. -/
def serializeCA (cas_id ca_pid : Nat) (private_data : List Nat) : List Nat :=
  let body : List Nat :=
    toBytes16 cas_id ++ toBytes16 (0xE000 ||| (ca_pid &&& 0x1FFF)) ++ private_data
  let size : Nat := 2 + body.length
  DID_CA :: ((size - 2) % 256) :: body

/-- A binary descriptor as seen by CADescriptor::deserialize.
Modelled from the spec: the Descriptor class (tsDescriptor.*) is not under
src/; the spec describes a descriptor as tag | length | payload with a
validity flag, which is all deserialize consults (desc.isValid(),
desc.tag(), desc.payload(), desc.payloadSize()). -/
structure BinDescriptor where
  valid : Bool
  tag : Nat
  payload : List Nat
  deriving Repr, DecidableEq

/-- The mutable fields of a ts::CADescriptor object. -/
structure CADescriptorState where
  is_valid : Bool
  cas_id : Nat
  ca_pid : Nat
  private_data : List Nat
  deriving Repr, DecidableEq

/-- Embedding of ts::CADescriptor::deserialize (tsCADescriptor.cpp lines
102-113): valid iff the binary descriptor is valid, has the CA tag and a
payload of at least 4 bytes; on success the fields are decoded from the
payload, otherwise they keep their previous values. -/
def deserializeCA (desc : BinDescriptor) (st : CADescriptorState) : CADescriptorState :=
  let ok : Bool := desc.valid && decide (desc.tag = DID_CA) && decide (4 ≤ desc.payload.length)
  if ok then
    { is_valid := true
      cas_id := getUInt16 desc.payload 0
      ca_pid := getUInt16 desc.payload 2 &&& 0x1FFF
      private_data := desc.payload.drop 4 }
  else
    { st with is_valid := false }

/-! ### TS packets

TSPacket accessors. The TSPacket class (tsTSPacket.h) is not under src/;
these byte-level accessors are modelled from the spec (§6, TS packet
format): byte 0 is the sync byte 0x47; byte 1 carries PUSI (bit 6) and the
PID high 5 bits; byte 2 the PID low 8 bits; byte 3 the scrambling control
(2 bits), adaptation_field_control (2 bits) and continuity counter
(4 bits). A packet is a fixed 188-byte array; reads beyond the modelling
list yield 0. -/

def pktByte (pkt : List Nat) (i : Nat) : Nat := pkt.getD i 0

def hasValidSync (pkt : List Nat) : Bool := pktByte pkt 0 == 0x47

def getPID (pkt : List Nat) : Nat := (pktByte pkt 1 &&& 0x1F) * 256 + pktByte pkt 2

def getPUSI (pkt : List Nat) : Bool := pktByte pkt 1 &&& 0x40 != 0

def getScrambling (pkt : List Nat) : Nat := pktByte pkt 3 >>> 6

def getCC (pkt : List Nat) : Nat := pktByte pkt 3 &&& 0x0F

def hasAF (pkt : List Nat) : Bool := pktByte pkt 3 &&& 0x20 != 0

def hasPayload (pkt : List Nat) : Bool := pktByte pkt 3 &&& 0x10 != 0

/-- Header size: 4 bytes, plus the adaptation field (its length byte at
offset 4 plus that many bytes) when present, capped at the packet size. -/
def getHeaderSize (pkt : List Nat) : Nat :=
  if hasAF pkt then min PKT_SIZE (5 + pktByte pkt 4) else 4

/-- A slice of the fixed 188-byte packet array, as a list of bytes. -/
def pktSlice (pkt : List Nat) (off len : Nat) : List Nat :=
  (List.range len).map (fun i => pktByte pkt (off + i))

/-! ### Section demultiplexer data model (tsSectionDemux.h/.cpp)

The PID context, ETID context and status records follow the spec data
model (§3) for the header file which is not under src/; the processing
functions below follow tsSectionDemux.cpp line by line. -/

/-- Extended table id: table_id plus table_id_extension (implicitly zero
for short sections, per the spec). -/
structure ETID where
  tid : Nat
  ext : Nat
  deriving Repr, DecidableEq

/-- Per-(E)TID reassembly slots on a PID. -/
structure ETIDContext where
  version : Nat
  sect_expected : Nat
  sect_received : Nat
  sects : List (Option (List Nat))
  deriving Repr, DecidableEq

def ETIDContext.init : ETIDContext :=
  { version := 0, sect_expected := 0, sect_received := 0, sects := [] }

/-- Per-PID analysis context. -/
structure PIDContext where
  continuity : Nat
  sync : Bool
  ts : List Nat
  pusi_pkt_index : Nat
  tids : ETID → ETIDContext

def PIDContext.init : PIDContext :=
  { continuity := 0, sync := false, ts := [], pusi_pkt_index := 0,
    tids := fun _ => ETIDContext.init }

/-- Modelled from the spec: PIDContext::syncLost clears the TS buffer and
drops synchronization. -/
def PIDContext.syncLost (pc : PIDContext) : PIDContext :=
  { pc with sync := false, ts := [] }

/-- The six error counters of SectionDemux::Status. -/
structure DemuxStatus where
  invalid_ts : Nat
  discontinuities : Nat
  scrambled : Nat
  inv_sect_length : Nat
  inv_sect_index : Nat
  wrong_crc : Nat
  deriving Repr, DecidableEq

def DemuxStatus.init : DemuxStatus :=
  { invalid_ts := 0, discontinuities := 0, scrambled := 0,
    inv_sect_length := 0, inv_sect_index := 0, wrong_crc := 0 }

/-- The demultiplexer state. Handlers are modelled by presence flags plus
an event trace: each handler invocation is recorded as an event carrying
exactly the data passed to the handler (sections are recorded with their
first/last packet index stamps). Handlers are treated as pure observers:
the re-entrant reset path (beforeCallingHandler / afterCallingHandler)
of the source is the identity when no handler resets the demux. -/
structure DemuxState where
  pid_filter : Nat → Bool
  has_section_handler : Bool
  has_table_handler : Bool
  pids : Nat → PIDContext
  status : DemuxStatus
  packet_count : Nat

/-- Handler invocations observed during one packet. -/
inductive DemuxEvent where
  | section (pid : Nat) (bytes : List Nat) (first last : Nat)
  | table (pid : Nat) (sects : List (Option (List Nat)))
  deriving Repr, DecidableEq

/-- Modelled from the spec: validity of a freshly built Section object
(ts::Section constructor with CRC32::CHECK; tsSection.cpp is not under
src/). Long-form sections (bit 7 of byte 1 set) are validated by CRC32;
short sections carry no CRC. The CRC32 computation itself is abstracted
as a boolean predicate over the full section bytes, passed as a parameter
throughout: the demux source only consults the resulting validity boolean
and notes that a wrong CRC is the only possible error at that point. -/
def sectionValid (crc : List Nat → Bool) (bytes : List Nat) : Bool :=
  if bytes.getD 1 0 &&& 0x80 ≠ 0 then crc bytes else true

/-- Result of the section extraction loop: the updated TID contexts,
counters and event trace, the final cursor, and whether the loop exited
through the invalid-section-length path (which loses sync). -/
structure LoopResult where
  tids : ETID → ETIDContext
  status : DemuxStatus
  events : List DemuxEvent
  start : Nat
  size : Nat
  lostSync : Bool

/-- The accepted-section path of the per-section analysis
(tsSectionDemux.cpp lines 382-470), entered once the section has survived
the truncation, section-number and next-indicator checks: ETID context
lookup and version handling, the changed-table-size check, Section
construction with CRC check, section handler invocation, slot storage and
table handler invocation on completion. sectBytes is the section's byte
slice of the buffer; status1 already accounts for a possible
inv_sect_index increment of the first index check. -/
def sectionAccept (crc : List Nat → Bool) (has_sh has_th : Bool)
    (pid packet_count : Nat) (tids : ETID → ETIDContext)
    (status1 : DemuxStatus) (events : List DemuxEvent) (pusi_idx : Nat)
    (sectBytes : List Nat) (etid : ETID)
    (version section_number last_section_number : Nat) (long_header : Bool) :
    (ETID → ETIDContext) × DemuxStatus × List DemuxEvent :=
  -- ETID context lookup and version handling (lines 387-407).
  let tc0 := tids etid
  let tc1 :=
    if long_header = false ∨ tc0.sect_expected = 0 ∨ tc0.version ≠ version then
      { version := version, sect_expected := last_section_number + 1,
        sect_received := 0,
        sects := List.replicate (last_section_number + 1) none }
    else tc0
  -- Changed table size check (line 412).
  if last_section_number ≠ tc1.sect_expected - 1 then
    (Function.update tids etid tc1,
      { status1 with inv_sect_index := status1.inv_sect_index + 1 }, events)
  else
    -- Build the Section only when a section handler is registered
    -- or the slot is empty (line 422); CRC check on construction.
    let constructed : Bool :=
      has_sh || (tc1.sects.getD section_number none).isNone
    if constructed && !(sectionValid crc sectBytes) then
      (Function.update tids etid tc1,
        { status1 with wrong_crc := status1.wrong_crc + 1 }, events)
    else
      -- Section handler invocation (line 438).
      let events1 :=
        if has_sh then
          events ++ [DemuxEvent.section pid sectBytes pusi_idx packet_count]
        else events
      -- Save the section if new; table handler on completion
      -- (lines 443-460).
      if (tc1.sects.getD section_number none).isNone then
        let tc2 := { tc1 with
          sects := tc1.sects.set section_number (some sectBytes),
          sect_received := tc1.sect_received + 1 }
        let events2 :=
          if tc2.sect_received = tc2.sect_expected ∧ has_th = true then
            events1 ++ [DemuxEvent.table pid tc2.sects]
          else events1
        (Function.update tids etid tc2, status1, events2)
      else
        (Function.update tids etid tc1, status1, events1)

/-- Per-section analysis of one complete section found in the buffer
(tsSectionDemux.cpp lines 356-470): long header decoding and section
number checks, then the accepted-section path above. clip is true when
the truncated-section detection (lines 350-354) invalidated this section;
section_length is the already clipped length. Returns the updated TID
contexts, status counters and event trace. -/
def sectionAnalyze (crc : List Nat → Bool) (has_sh has_th : Bool)
    (pid packet_count : Nat) (buf : List Nat) (tids : ETID → ETIDContext)
    (status : DemuxStatus) (events : List DemuxEvent)
    (pusi_idx start section_length : Nat) (long_header clip : Bool) :
    (ETID → ETIDContext) × DemuxStatus × List DemuxEvent :=
  -- Long header analysis (lines 358-374), skipped when clipped.
  let lh : Bool := !clip && long_header
  let etid : ETID :=
    if lh then ⟨buf.getD start 0, buf.getD (start + 3) 0 * 256 + buf.getD (start + 4) 0⟩
    else ⟨buf.getD start 0, 0⟩
  let version := if lh then buf.getD (start + 5) 0 >>> 1 &&& 0x1F else 0
  let is_next : Bool := if lh then buf.getD (start + 5) 0 &&& 0x01 == 0 else false
  let section_number := if lh then buf.getD (start + 6) 0 else 0
  let last_section_number := if lh then buf.getD (start + 7) 0 else 0
  let badIndex : Bool := lh && decide (last_section_number < section_number)
  let status1 :=
    if badIndex then { status with inv_sect_index := status.inv_sect_index + 1 }
    else status
  -- Sections with the next indicator are ignored (line 378).
  let ok : Bool := !clip && !badIndex && !is_next
  if ok then
    sectionAccept crc has_sh has_th pid packet_count tids status1 events
      pusi_idx ((buf.drop start).take section_length) etid version
      section_number last_section_number long_header
  else (tids, status1, events)

/-- Embedding of the section extraction loop of
ts::SectionDemux::processPacket (tsSectionDemux.cpp lines 321-486).
The buffer is fixed and the cursor (ts_start, ts_size) is a pair of
naturals (start, size); pusi_section is the absolute index, inside the
buffer, of the section starting at the current packet's PUSI (none when
the packet has no PUSI, matching the source's null pointer). The fuel
argument only bounds the recursion: every iteration strictly decreases
size (each section consumes at least one byte), so fuel = initial size
always suffices and the zero-fuel branch, which coincides with the
loop's normal wait-for-more exit, is never taken when so invoked. -/
def sectionLoop (crc : List Nat → Bool) (has_sh has_th : Bool) (pid : Nat)
    (packet_count : Nat) (pusi_section : Option Nat) (buf : List Nat)
    (fuel : Nat) (tids : ETID → ETIDContext) (status : DemuxStatus)
    (events : List DemuxEvent) (pusi_idx : Nat) (start size : Nat) :
    LoopResult :=
  match fuel with
  | 0 => ⟨tids, status, events, start, size, false⟩
  | fuel + 1 =>
    if size < 3 then ⟨tids, status, events, start, size, false⟩
    else
      -- Get section header (lines 326-329).
      let raw := buf.getD (start + 1) 0 * 256 + buf.getD (start + 2) 0
      let long_header : Bool := raw &&& 0x8000 != 0
      let len0 := (raw &&& 0x0FFF) + SHORT_SECTION_HEADER_SIZE
      -- Lose synchronization on invalid section length (lines 333-340).
      if MAX_PRIVATE_SECTION_SIZE < len0 ∨ len0 < MIN_SHORT_SECTION_SIZE ∨
          (long_header = true ∧ len0 < MIN_LONG_SECTION_SIZE) then
        ⟨tids, { status with inv_sect_length := status.inv_sect_length + 1 },
          events, start, size, true⟩
      -- Wait for next packets when the section end is missing (line 344).
      else if size < len0 then ⟨tids, status, events, start, size, false⟩
      else
        -- Truncated-section detection (lines 350-354): the previous section
        -- was truncated when the PUSI section starts strictly inside it.
        let clip : Bool :=
          pusi_section.elim false
            (fun ps => decide (start < ps) && decide (ps < start + len0))
        let section_length := if clip then pusi_section.getD 0 - start else len0
        let next := sectionAnalyze crc has_sh has_th pid packet_count buf
          tids status events pusi_idx start section_length long_header clip
        -- Advance to the next section (lines 474-485); stamp the next
        -- section to the current packet; skip stuffing.
        let start2 := start + section_length
        let size2 := size - section_length
        let size3 := if 0 < size2 ∧ buf.getD start2 0 = 0xFF then 0 else size2
        sectionLoop crc has_sh has_th pid packet_count pusi_section buf fuel
          next.1 next.2.1 next.2.2 packet_count start2 size3

/-- Append the (possibly trimmed) payload to the PID buffer and run the
extraction loop (tsSectionDemux.cpp lines 296-498), then either lose sync
(invalid section length) or compact the buffer. -/
def appendAndParse (crc : List Nat → Bool) (has_sh has_th : Bool)
    (pid packet_count : Nat) (pusi : Bool) (pointer_field : Nat)
    (payload : List Nat) (payload_size : Nat) (pusi_idx : Nat)
    (pc : PIDContext) (status : DemuxStatus) :
    PIDContext × DemuxStatus × List DemuxEvent :=
  let buf := pc.ts ++ payload.take payload_size
  let pusi_section : Option Nat :=
    if pusi then some (buf.length - payload_size + pointer_field) else none
  let r := sectionLoop crc has_sh has_th pid packet_count pusi_section buf
      buf.length pc.tids status [] pusi_idx 0 buf.length
  if r.lostSync then
    ({ pc with sync := false, ts := [], tids := r.tids }, r.status, r.events)
  else
    ({ pc with ts := if r.size = 0 then [] else buf.drop r.start, tids := r.tids },
      r.status, r.events)

/-- Payload handling after the PUSI analysis (tsSectionDemux.cpp lines
277-294): drop empty payloads, and while out of sync require a PUSI and
skip the end of the previous section. -/
def processPayload (crc : List Nat → Bool) (has_sh has_th : Bool)
    (pid packet_count : Nat) (pusi : Bool) (pointer_field : Nat)
    (payload : List Nat) (payload_size : Nat) (pusi_idx : Nat)
    (pc : PIDContext) (status : DemuxStatus) :
    PIDContext × DemuxStatus × List DemuxEvent :=
  if payload_size = 0 then (pc, status, [])
  else if pc.sync then
    appendAndParse crc has_sh has_th pid packet_count pusi pointer_field
      payload payload_size pusi_idx pc status
  else if pusi then
    appendAndParse crc has_sh has_th pid packet_count pusi 0
      (payload.drop pointer_field) (payload_size - pointer_field) pusi_idx
      { pc with sync := true } status
  else (pc, status, [])

/-- Result of processing one accepted packet: the demux's status and PID
map after the packet, plus the handler invocations it produced. -/
structure PPResult where
  status : DemuxStatus
  pids : Nat → PIDContext
  events : List DemuxEvent

/-- Embedding of ts::SectionDemux::processPacket (tsSectionDemux.cpp
lines 187-499): sync-byte check, scrambling check, continuity check,
payload location, PES filtering, pointer field handling, then the
payload/section processing. The source mutates only the status counters
and the PID map; both are returned here. -/
def processPacket (crc : List Nat → Bool) (s : DemuxState) (pkt : List Nat) :
    PPResult :=
  -- Reject invalid packets (line 191).
  if hasValidSync pkt = false then
    ⟨{ s.status with invalid_ts := s.status.invalid_ts + 1 }, s.pids, []⟩
  else
    let pid := getPID pkt
    let pc := s.pids pid
    -- Scrambled packets cannot be decoded: lose sync (lines 206-210).
    if getScrambling pkt ≠ 0 then
      ⟨{ s.status with scrambled := s.status.scrambled + 1 },
        Function.update s.pids pid pc.syncLost, []⟩
    -- Ignore duplicate packets, same continuity counter (lines 215-219).
    else if pc.sync ∧ getCC pkt = pc.continuity then ⟨s.status, s.pids, []⟩
    else
      -- Continuity check (lines 221-227).
      let disc : Prop := pc.sync ∧ getCC pkt ≠ (pc.continuity + 1) % CC_MAX
      let status1 :=
        if disc then { s.status with discontinuities := s.status.discontinuities + 1 }
        else s.status
      let pc1 := if disc then pc.syncLost else pc
      let pc2 := { pc1 with continuity := getCC pkt }
      -- Locate the payload (lines 231-235).
      let header_size := getHeaderSize pkt
      if hasPayload pkt = false ∨ PKT_SIZE ≤ header_size then
        ⟨status1, Function.update s.pids pid pc2, []⟩
      else
        let pusi_old := pc2.pusi_pkt_index
        if getPUSI pkt then
          -- Keep track of the last PUSI packet (line 244).
          let pc3 := { pc2 with pusi_pkt_index := s.packet_count }
          -- Filter out PES packets (lines 249-256).
          if header_size + 3 ≤ PKT_SIZE ∧ pktByte pkt header_size = 0 ∧
              pktByte pkt (header_size + 1) = 0 ∧ pktByte pkt (header_size + 2) = 1 then
            ⟨status1, Function.update s.pids pid pc3.syncLost, []⟩
          else
            -- Pointer field handling (lines 258-268).
            let pointer_field := pktByte pkt header_size
            let payload_size := PKT_SIZE - header_size - 1
            if payload_size ≤ pointer_field then
              ⟨status1, Function.update s.pids pid pc3.syncLost, []⟩
            else
              let pusi_idx := if pointer_field = 0 then s.packet_count else pusi_old
              let r := processPayload crc s.has_section_handler s.has_table_handler
                pid s.packet_count true pointer_field
                (pktSlice pkt (header_size + 1) payload_size) payload_size
                pusi_idx pc3 status1
              ⟨r.2.1, Function.update s.pids pid r.1, r.2.2⟩
        else
          -- PUSI not set: the whole payload is section data (lines 270-275).
          let payload_size := PKT_SIZE - header_size
          let r := processPayload crc s.has_section_handler s.has_table_handler
            pid s.packet_count false 0xFF
            (pktSlice pkt header_size payload_size) payload_size
            pusi_old pc2 status1
          ⟨r.2.1, Function.update s.pids pid r.1, r.2.2⟩

/-- Embedding of ts::SectionDemux::feedPacket (tsSectionDemux.cpp lines
179-185): process the packet when its PID is filtered, then always
increment the packet counter. -/
def feedPacket (crc : List Nat → Bool) (s : DemuxState) (pkt : List Nat) :
    DemuxState × List DemuxEvent :=
  if s.pid_filter (getPID pkt) then
    let r := processPacket crc s pkt
    ({ s with
        status := r.status
        pids := r.pids
        packet_count := s.packet_count + 1 }, r.events)
  else
    ({ s with packet_count := s.packet_count + 1 }, [])

/-! ### Claim C8: CA_descriptor serialization length field -/

set_option maxRecDepth 8192

/-- Claim C8 counterexample: serializing a CADescriptor whose private_data
has 252 bytes yields a descriptor whose recorded length byte (0) disagrees
with its actual payload size (256): the uint8_t cast truncates silently,
so the claim that serialization never produces a disagreeing length for
arbitrary private_data is false. -/
theorem C8_length_field_disagrees :
    (serializeCA 0x1234 0x0100 (List.replicate 252 0)).getD 1 0 = 0 ∧
    (serializeCA 0x1234 0x0100 (List.replicate 252 0)).length - 2 = 256 ∧
    (serializeCA 0x1234 0x0100 (List.replicate 252 0)).getD 1 0 ≠
      (serializeCA 0x1234 0x0100 (List.replicate 252 0)).length - 2 := by
  decide

/-- Claim C8 (amended): provided the private data has at most 251 bytes,
the serialized CA_descriptor has the CA tag, its one-byte length field
equals the payload size (CA_system_id, reserved|CA_PID, private_data,
i.e. 4 + |private_data|), the length fits in a byte, and the total
descriptor size is at most MAX_DESCRIPTOR_SIZE. -/
theorem C8_length_field_consistent (cas_id ca_pid : Nat) (pd : List Nat)
    (h : pd.length ≤ 251) :
    (serializeCA cas_id ca_pid pd).getD 0 0 = DID_CA ∧
    (serializeCA cas_id ca_pid pd).getD 1 0 = 4 + pd.length ∧
    (serializeCA cas_id ca_pid pd).length = 6 + pd.length ∧
    4 + pd.length ≤ 255 ∧
    (serializeCA cas_id ca_pid pd).length ≤ MAX_DESCRIPTOR_SIZE := by
  refine ⟨rfl, ?_, ?_, by omega, ?_⟩ <;>
    simp only [serializeCA, toBytes16, List.getD_cons_succ, List.getD_cons_zero,
      List.length_cons, List.length_append, List.length_nil,
      MAX_DESCRIPTOR_SIZE] <;> omega

/-- Witness for C8_length_field_consistent at a concrete input. -/
theorem C8_length_field_consistent_witness :
    (serializeCA 0x1234 0x0100 [0xAB, 0xCD]).getD 1 0 = 6 :=
  (C8_length_field_consistent 0x1234 0x0100 [0xAB, 0xCD] (by decide)).2.1

/-! ### Claim C9: CA_descriptor deserialization -/

/-- Claim C9: deserialization marks the descriptor valid iff the binary
descriptor is valid, carries the CA tag (0x09) and a payload of at least
4 bytes; when valid, ca_pid is the low 13 bits of payload bytes 2-3 and
private_data is exactly the payload after the first 4 bytes; when invalid
the previous cas_id, ca_pid and private_data are preserved. -/
theorem C9_deserialize_ok (desc : BinDescriptor) (st : CADescriptorState) :
    ((deserializeCA desc st).is_valid = true ↔
      desc.valid = true ∧ desc.tag = DID_CA ∧ 4 ≤ desc.payload.length) ∧
    ((deserializeCA desc st).is_valid = true →
      (deserializeCA desc st).cas_id = getUInt16 desc.payload 0 ∧
      (deserializeCA desc st).ca_pid = getUInt16 desc.payload 2 &&& 0x1FFF ∧
      (deserializeCA desc st).private_data = desc.payload.drop 4) ∧
    ((deserializeCA desc st).is_valid = false →
      (deserializeCA desc st).cas_id = st.cas_id ∧
      (deserializeCA desc st).ca_pid = st.ca_pid ∧
      (deserializeCA desc st).private_data = st.private_data) := by
  unfold deserializeCA
  by_cases hv : desc.valid = true ∧ desc.tag = DID_CA ∧ 4 ≤ desc.payload.length
  · obtain ⟨h1, h2, h3⟩ := hv
    simp [h1, h2, h3]
  · have : ¬ (desc.valid && decide (desc.tag = DID_CA) &&
        decide (4 ≤ desc.payload.length)) = true := by
      simp only [Bool.and_eq_true, decide_eq_true_eq]
      tauto
    simp only [this, if_false, if_neg]
    constructor
    · simp only [Bool.and_eq_true, decide_eq_true_eq] at this ⊢
      constructor
      · intro h; simp at h
      · intro h; exact absurd h hv
    · constructor
      · intro h; simp at h
      · intro _; exact ⟨rfl, rfl, rfl⟩

/-- Witness for C9_deserialize_ok: the valid-case implication at a
concrete descriptor. -/
theorem C9_deserialize_ok_witness :
    (deserializeCA ⟨true, 0x09, [0x12, 0x34, 0xE1, 0x00, 0xAA]⟩
        ⟨false, 0, 0, []⟩).ca_pid = 0x0100 := by
  have h := (C9_deserialize_ok ⟨true, 0x09, [0x12, 0x34, 0xE1, 0x00, 0xAA]⟩
    ⟨false, 0, 0, []⟩).2.1 (by decide)
  rw [h.2.1]
  decide


/-! ### Frame lemmas on the demux status counters

These record which counters each layer of the packet processing can
touch: the section extraction loop never modifies invalid_ts, scrambled
or discontinuities, and increments inv_sect_length at most once (it
returns immediately when it does). -/

theorem sectionAccept_status (crc : List Nat → Bool) (has_sh has_th : Bool)
    (pid packet_count : Nat) (tids : ETID → ETIDContext)
    (status1 : DemuxStatus) (events : List DemuxEvent) (pusi_idx : Nat)
    (sectBytes : List Nat) (etid : ETID)
    (version section_number last_section_number : Nat) (long_header : Bool) :
    (sectionAccept crc has_sh has_th pid packet_count tids status1 events
        pusi_idx sectBytes etid version section_number last_section_number
        long_header).2.1.invalid_ts = status1.invalid_ts ∧
    (sectionAccept crc has_sh has_th pid packet_count tids status1 events
        pusi_idx sectBytes etid version section_number last_section_number
        long_header).2.1.scrambled = status1.scrambled ∧
    (sectionAccept crc has_sh has_th pid packet_count tids status1 events
        pusi_idx sectBytes etid version section_number last_section_number
        long_header).2.1.discontinuities = status1.discontinuities ∧
    (sectionAccept crc has_sh has_th pid packet_count tids status1 events
        pusi_idx sectBytes etid version section_number last_section_number
        long_header).2.1.inv_sect_length = status1.inv_sect_length := by
  unfold sectionAccept
  dsimp only []
  repeat' split
  all_goals exact ⟨rfl, rfl, rfl, rfl⟩

theorem sectionAnalyze_status (crc : List Nat → Bool) (has_sh has_th : Bool)
    (pid packet_count : Nat) (buf : List Nat) (tids : ETID → ETIDContext)
    (status : DemuxStatus) (events : List DemuxEvent)
    (pusi_idx start section_length : Nat) (long_header clip : Bool) :
    (sectionAnalyze crc has_sh has_th pid packet_count buf tids status events
        pusi_idx start section_length long_header clip).2.1.invalid_ts
      = status.invalid_ts ∧
    (sectionAnalyze crc has_sh has_th pid packet_count buf tids status events
        pusi_idx start section_length long_header clip).2.1.scrambled
      = status.scrambled ∧
    (sectionAnalyze crc has_sh has_th pid packet_count buf tids status events
        pusi_idx start section_length long_header clip).2.1.discontinuities
      = status.discontinuities ∧
    (sectionAnalyze crc has_sh has_th pid packet_count buf tids status events
        pusi_idx start section_length long_header clip).2.1.inv_sect_length
      = status.inv_sect_length := by
  unfold sectionAnalyze
  dsimp only []
  repeat' split
  all_goals first
    | exact ⟨rfl, rfl, rfl, rfl⟩
    | exact sectionAccept_status ..

theorem sectionLoop_status (crc : List Nat → Bool) (has_sh has_th : Bool)
    (pid packet_count : Nat) (pusi_section : Option Nat) (buf : List Nat)
    (fuel : Nat) (tids : ETID → ETIDContext) (status : DemuxStatus)
    (events : List DemuxEvent) (pusi_idx start size : Nat) :
    (sectionLoop crc has_sh has_th pid packet_count pusi_section buf fuel
        tids status events pusi_idx start size).status.invalid_ts = status.invalid_ts ∧
    (sectionLoop crc has_sh has_th pid packet_count pusi_section buf fuel
        tids status events pusi_idx start size).status.scrambled = status.scrambled ∧
    (sectionLoop crc has_sh has_th pid packet_count pusi_section buf fuel
        tids status events pusi_idx start size).status.discontinuities = status.discontinuities ∧
    (sectionLoop crc has_sh has_th pid packet_count pusi_section buf fuel
        tids status events pusi_idx start size).status.inv_sect_length ≤ status.inv_sect_length + 1 := by
  induction fuel generalizing tids status events pusi_idx start size with
  | zero => exact ⟨rfl, rfl, rfl, Nat.le_succ _⟩
  | succ n ih =>
    rw [sectionLoop]
    dsimp only []
    repeat' split
    all_goals first
      | exact ⟨rfl, rfl, rfl, Nat.le_succ _⟩
      | exact ⟨rfl, rfl, rfl, Nat.le_refl _⟩
      | exact ⟨(ih ..).1.trans (sectionAnalyze_status ..).1,
          (ih ..).2.1.trans (sectionAnalyze_status ..).2.1,
          (ih ..).2.2.1.trans (sectionAnalyze_status ..).2.2.1,
          le_trans (ih ..).2.2.2
            (Nat.add_le_add_right (le_of_eq (sectionAnalyze_status ..).2.2.2) 1)⟩

theorem appendAndParse_status (crc : List Nat → Bool) (has_sh has_th : Bool)
    (pid packet_count : Nat) (pusi : Bool) (pointer_field : Nat)
    (payload : List Nat) (payload_size pusi_idx : Nat)
    (pc : PIDContext) (status : DemuxStatus) :
    (appendAndParse crc has_sh has_th pid packet_count pusi pointer_field
        payload payload_size pusi_idx pc status).2.1.invalid_ts = status.invalid_ts ∧
    (appendAndParse crc has_sh has_th pid packet_count pusi pointer_field
        payload payload_size pusi_idx pc status).2.1.scrambled = status.scrambled ∧
    (appendAndParse crc has_sh has_th pid packet_count pusi pointer_field
        payload payload_size pusi_idx pc status).2.1.discontinuities = status.discontinuities ∧
    (appendAndParse crc has_sh has_th pid packet_count pusi pointer_field
        payload payload_size pusi_idx pc status).2.1.inv_sect_length ≤ status.inv_sect_length + 1 := by
  unfold appendAndParse
  dsimp only []
  repeat' split
  all_goals exact sectionLoop_status ..

theorem processPayload_status (crc : List Nat → Bool) (has_sh has_th : Bool)
    (pid packet_count : Nat) (pusi : Bool) (pointer_field : Nat)
    (payload : List Nat) (payload_size pusi_idx : Nat)
    (pc : PIDContext) (status : DemuxStatus) :
    (processPayload crc has_sh has_th pid packet_count pusi pointer_field
        payload payload_size pusi_idx pc status).2.1.invalid_ts = status.invalid_ts ∧
    (processPayload crc has_sh has_th pid packet_count pusi pointer_field
        payload payload_size pusi_idx pc status).2.1.scrambled = status.scrambled ∧
    (processPayload crc has_sh has_th pid packet_count pusi pointer_field
        payload payload_size pusi_idx pc status).2.1.discontinuities = status.discontinuities ∧
    (processPayload crc has_sh has_th pid packet_count pusi pointer_field
        payload payload_size pusi_idx pc status).2.1.inv_sect_length ≤ status.inv_sect_length + 1 := by
  unfold processPayload
  repeat' split
  all_goals first
    | exact ⟨rfl, rfl, rfl, Nat.le_succ _⟩
    | exact appendAndParse_status ..


/-- Sum of the four status counters that terminate or interrupt packet
processing when incremented. -/
def statusSum4 (st : DemuxStatus) : Nat :=
  st.invalid_ts + st.scrambled + st.discontinuities + st.inv_sect_length

theorem sectionAccept_sum4 (crc : List Nat → Bool) (has_sh has_th : Bool)
    (pid packet_count : Nat) (tids : ETID → ETIDContext)
    (status1 : DemuxStatus) (events : List DemuxEvent) (pusi_idx : Nat)
    (sectBytes : List Nat) (etid : ETID)
    (version section_number last_section_number : Nat) (long_header : Bool) :
    statusSum4 (sectionAccept crc has_sh has_th pid packet_count tids status1
        events pusi_idx sectBytes etid version section_number
        last_section_number long_header).2.1 = statusSum4 status1 := by
  unfold sectionAccept
  dsimp only []
  repeat' split
  all_goals rfl

theorem sectionAnalyze_sum4 (crc : List Nat → Bool) (has_sh has_th : Bool)
    (pid packet_count : Nat) (buf : List Nat) (tids : ETID → ETIDContext)
    (status : DemuxStatus) (events : List DemuxEvent)
    (pusi_idx start section_length : Nat) (long_header clip : Bool) :
    statusSum4 (sectionAnalyze crc has_sh has_th pid packet_count buf tids status
        events pusi_idx start section_length long_header clip).2.1
      = statusSum4 status := by
  unfold sectionAnalyze
  dsimp only []
  repeat' split
  all_goals first
    | rfl
    | exact sectionAccept_sum4 ..

theorem sectionLoop_sum4 (crc : List Nat → Bool) (has_sh has_th : Bool)
    (pid packet_count : Nat) (pusi_section : Option Nat) (buf : List Nat)
    (fuel : Nat) (tids : ETID → ETIDContext) (status : DemuxStatus)
    (events : List DemuxEvent) (pusi_idx start size : Nat) :
    statusSum4 (sectionLoop crc has_sh has_th pid packet_count pusi_section buf fuel
        tids status events pusi_idx start size).status ≤ statusSum4 status + 1 := by
  induction fuel generalizing tids status events pusi_idx start size with
  | zero => exact Nat.le_succ _
  | succ n ih =>
    rw [sectionLoop]
    dsimp only []
    repeat' split
    all_goals first
      | exact Nat.le_succ _
      | exact Nat.le_refl _
      | exact le_trans (ih ..)
          (Nat.add_le_add_right (le_of_eq (sectionAnalyze_sum4 ..)) 1)

theorem appendAndParse_sum4 (crc : List Nat → Bool) (has_sh has_th : Bool)
    (pid packet_count : Nat) (pusi : Bool) (pointer_field : Nat)
    (payload : List Nat) (payload_size pusi_idx : Nat)
    (pc : PIDContext) (status : DemuxStatus) :
    statusSum4 (appendAndParse crc has_sh has_th pid packet_count pusi pointer_field
        payload payload_size pusi_idx pc status).2.1 ≤ statusSum4 status + 1 := by
  unfold appendAndParse
  dsimp only []
  repeat' split
  all_goals exact sectionLoop_sum4 ..

theorem processPayload_sum4 (crc : List Nat → Bool) (has_sh has_th : Bool)
    (pid packet_count : Nat) (pusi : Bool) (pointer_field : Nat)
    (payload : List Nat) (payload_size pusi_idx : Nat)
    (pc : PIDContext) (status : DemuxStatus) :
    statusSum4 (processPayload crc has_sh has_th pid packet_count pusi pointer_field
        payload payload_size pusi_idx pc status).2.1 ≤ statusSum4 status + 1 := by
  unfold processPayload
  repeat' split
  all_goals first
    | exact Nat.le_succ _
    | exact appendAndParse_sum4 ..

set_option maxHeartbeats 2000000 in
theorem processPacket_counters (crc : List Nat → Bool) (s : DemuxState) (pkt : List Nat) :
    (processPacket crc s pkt).status.invalid_ts ≤ s.status.invalid_ts + 1 ∧
    (processPacket crc s pkt).status.scrambled ≤ s.status.scrambled + 1 ∧
    (processPacket crc s pkt).status.discontinuities ≤ s.status.discontinuities + 1 ∧
    (processPacket crc s pkt).status.inv_sect_length ≤ s.status.inv_sect_length + 1 := by
  refine ⟨?_, ?_, ?_, ?_⟩
  all_goals unfold processPacket
  all_goals dsimp only []
  all_goals repeat' split
  all_goals first
    | omega
    | (simp only []; omega)
    | exact le_trans (le_of_eq (processPayload_status ..).1) (Nat.le_succ _)
    | exact le_trans (le_of_eq (processPayload_status ..).2.1) (Nat.le_succ _)
    | exact le_of_eq (processPayload_status ..).2.2.1
    | exact le_trans (le_of_eq (processPayload_status ..).2.2.1) (Nat.le_succ _)
    | exact (processPayload_status ..).2.2.2

set_option maxHeartbeats 2000000 in
theorem processPacket_sum4 (crc : List Nat → Bool) (s : DemuxState) (pkt : List Nat) :
    statusSum4 (processPacket crc s pkt).status ≤ statusSum4 s.status + 2 := by
  unfold processPacket
  dsimp only []
  repeat' split
  all_goals first
    | (simp [statusSum4] <;> omega)
    | (refine le_trans (processPayload_sum4 ..) ?_
       simp [statusSum4] <;> omega)


/-! ### Concrete fixtures for counterexamples and witnesses -/

/-- A TS packet built from header fields and payload bytes, stuffed with
0xFF to the fixed 188-byte size: sync byte, PUSI flag and PID in bytes
1-2, adaptation_field_control = 01 (payload only) and continuity counter
in byte 3. -/
def mkPkt (pusi : Bool) (pid cc : Nat) (payload : List Nat) : List Nat :=
  [0x47, (if pusi then 0x40 else 0) ||| (pid / 256 &&& 0x1F), pid % 256,
    0x10 ||| cc] ++ (payload ++ List.replicate (184 - payload.length) 0xFF)

/-- A freshly constructed demultiplexer (all counters zero, no contexts). -/
def demuxInit (filter : Nat → Bool) (has_sh has_th : Bool) : DemuxState :=
  { pid_filter := filter, has_section_handler := has_sh,
    has_table_handler := has_th, pids := fun _ => PIDContext.init,
    status := DemuxStatus.init, packet_count := 0 }

/-- A demux filtering PID 0x100, whose PID 0x100 context is in sync with
last continuity counter 0. -/
def c4State : DemuxState :=
  { demuxInit (fun p => p == 0x100) true true with
    pids := fun p => if p == 0x100 then { PIDContext.init with sync := true } else PIDContext.init }

/-- A PID 0x100 packet with PUSI, continuity counter 2 (a discontinuity
after counter 0), pointer field 0, and a section header declaring section
length 0xFFF + 3 = 4098 > 4096 (invalid). -/
def c4Pkt : List Nat := mkPkt true 0x100 2 ([0x00] ++ [0x00, 0x0F, 0xFF])

/-! ### Claim C4: per-packet status counter increase -/

/-- Claim C4 counterexample: a single packet can increment two status
counters. Starting from zeroed counters, feeding one packet that carries
both a continuity discontinuity and an invalid section length increments
discontinuities and inv_sect_length, a total increase of 2 over the six
counters, contradicting the claim that the total increase is exactly one
or zero. -/
theorem C4_two_counters_one_packet :
    c4State.status = DemuxStatus.init ∧
    (feedPacket (fun _ => true) c4State c4Pkt).1.status.invalid_ts +
      (feedPacket (fun _ => true) c4State c4Pkt).1.status.discontinuities +
      (feedPacket (fun _ => true) c4State c4Pkt).1.status.scrambled +
      (feedPacket (fun _ => true) c4State c4Pkt).1.status.inv_sect_length +
      (feedPacket (fun _ => true) c4State c4Pkt).1.status.inv_sect_index +
      (feedPacket (fun _ => true) c4State c4Pkt).1.status.wrong_crc = 2 := by
  exact ⟨rfl, by decide⟩

/-- Claim C4 (amended): for every packet given to feed_packet, each of
invalid_ts, scrambled, discontinuities and inv_sect_length increases by
at most one and their combined increase is at most two (a continuity
discontinuity does not terminate packet processing and can be followed by
one more increment in the same packet); inv_sect_index and wrong_crc may
additionally be incremented once per section scanned, so the total
increase over the six counters is not bounded by one. -/
theorem C4_counter_increase (crc : List Nat → Bool) (s : DemuxState) (pkt : List Nat) :
    (feedPacket crc s pkt).1.status.invalid_ts ≤ s.status.invalid_ts + 1 ∧
    (feedPacket crc s pkt).1.status.scrambled ≤ s.status.scrambled + 1 ∧
    (feedPacket crc s pkt).1.status.discontinuities ≤ s.status.discontinuities + 1 ∧
    (feedPacket crc s pkt).1.status.inv_sect_length ≤ s.status.inv_sect_length + 1 ∧
    (feedPacket crc s pkt).1.status.invalid_ts + (feedPacket crc s pkt).1.status.scrambled +
        (feedPacket crc s pkt).1.status.discontinuities +
        (feedPacket crc s pkt).1.status.inv_sect_length ≤
      s.status.invalid_ts + s.status.scrambled + s.status.discontinuities +
        s.status.inv_sect_length + 2 := by
  unfold feedPacket
  split
  · exact ⟨(processPacket_counters crc s pkt).1,
      (processPacket_counters crc s pkt).2.1,
      (processPacket_counters crc s pkt).2.2.1,
      (processPacket_counters crc s pkt).2.2.2,
      processPacket_sum4 crc s pkt⟩
  · exact ⟨Nat.le_succ _, Nat.le_succ _, Nat.le_succ _, Nat.le_succ _,
      Nat.le_add_right _ 2⟩

/-! ### Claim C10: frame effect of unfiltered packets -/

/-- Claim C10: a packet whose PID is not in the filter leaves the demux
state entirely unchanged except for the packet counter, which increases
by exactly one; the packet counter also increases by exactly one for
filtered packets. -/
theorem C10_unfiltered_packet_frame (crc : List Nat → Bool) (s : DemuxState) (pkt : List Nat) :
    (s.pid_filter (getPID pkt) = false →
      (feedPacket crc s pkt).1 = { s with packet_count := s.packet_count + 1 } ∧
      (feedPacket crc s pkt).2 = []) ∧
    (feedPacket crc s pkt).1.packet_count = s.packet_count + 1 := by
  unfold feedPacket
  constructor
  · intro h
    rw [if_neg (by simp [h])]
    exact ⟨rfl, rfl⟩
  · split <;> rfl

/-- Witness for C10_unfiltered_packet_frame at a concrete state and
packet whose PID 0x100 is not in the (empty) filter. -/
theorem C10_unfiltered_packet_frame_witness :
    (feedPacket (fun _ => true) (demuxInit (fun _ => false) true true)
        (mkPkt true 0x100 0 [0x00])).1
      = { demuxInit (fun _ => false) true true with packet_count := 1 } :=
  ((C10_unfiltered_packet_frame (fun _ => true)
      (demuxInit (fun _ => false) true true)
      (mkPkt true 0x100 0 [0x00])).1 rfl).1


/-! ### Claim C6: PES packet rejection -/

/-- A demux filtering PID 0x100, whose PID 0x100 context is in sync with
last continuity counter 5 and a non-empty partial-section buffer. -/
def c6State : DemuxState :=
  { demuxInit (fun p => p == 0x100) true true with
    pids := fun p => if p == 0x100 then
        { PIDContext.init with sync := true, continuity := 5, ts := [1, 2, 3] }
      else PIDContext.init }

/-- A PID 0x100 packet with PUSI whose first three payload bytes are
00 00 01 and whose continuity counter equals the last one seen (5). -/
def c6Pkt : List Nat := mkPkt true 0x100 5 [0x00, 0x00, 0x01, 0xE0]

/-- Claim C6 counterexample: a PUSI packet whose payload starts with
00 00 01 but whose continuity counter duplicates the previous one is
silently dropped by the duplicate-packet check before the PES filter
runs: syncLost is not called, the buffer is kept and sync stays true,
contradicting the claim for every accepted packet. -/
theorem C6_duplicate_pes_not_rejected :
    c6State.pid_filter (getPID c6Pkt) = true ∧
    hasValidSync c6Pkt = true ∧
    getPUSI c6Pkt = true ∧
    pktByte c6Pkt (getHeaderSize c6Pkt) = 0 ∧
    pktByte c6Pkt (getHeaderSize c6Pkt + 1) = 0 ∧
    pktByte c6Pkt (getHeaderSize c6Pkt + 2) = 1 ∧
    ((feedPacket (fun _ => true) c6State c6Pkt).1.pids (getPID c6Pkt)).sync = true ∧
    ((feedPacket (fun _ => true) c6State c6Pkt).1.pids (getPID c6Pkt)).ts = [1, 2, 3] := by
  decide

/-- Claim C6 (amended): for every accepted packet (filtered PID, valid
sync byte) with PUSI set, a payload, and first three payload bytes
00 00 01, except a packet dropped as a duplicate (clear, in sync, and
continuity counter equal to the previous one), the demux loses sync on
that PID: afterwards the PID context has sync = false and an empty
buffer, and no handler was invoked for that packet. -/
theorem C6_pes_rejection (crc : List Nat → Bool) (s : DemuxState) (pkt : List Nat)
    (hf : s.pid_filter (getPID pkt) = true)
    (hs : hasValidSync pkt = true)
    (hpusi : getPUSI pkt = true)
    (hpl : hasPayload pkt = true)
    (hhs : getHeaderSize pkt + 3 ≤ PKT_SIZE)
    (hb0 : pktByte pkt (getHeaderSize pkt) = 0)
    (hb1 : pktByte pkt (getHeaderSize pkt + 1) = 0)
    (hb2 : pktByte pkt (getHeaderSize pkt + 2) = 1)
    (hnodup : getScrambling pkt ≠ 0 ∨ (s.pids (getPID pkt)).sync = false ∨
              getCC pkt ≠ (s.pids (getPID pkt)).continuity) :
    ((feedPacket crc s pkt).1.pids (getPID pkt)).sync = false ∧
    ((feedPacket crc s pkt).1.pids (getPID pkt)).ts = [] ∧
    (feedPacket crc s pkt).2 = [] := by
  unfold feedPacket processPacket
  dsimp only []
  rw [if_pos hf]
  repeat' split
  all_goals first
    | (simp_all [PIDContext.syncLost, Function.update_same]; done)
    | (simp_all [PIDContext.syncLost, Function.update_same]; omega)


/-- Witness for C6_pes_rejection: a fresh demux (PID out of sync, so not
a duplicate) fed a PUSI packet whose payload starts with 00 00 01. -/
theorem C6_pes_rejection_witness :
    ((feedPacket (fun _ => true) (demuxInit (fun _ => true) true true)
        (mkPkt true 0x100 7 [0x00, 0x00, 0x01])).1.pids
      (getPID (mkPkt true 0x100 7 [0x00, 0x00, 0x01]))).sync = false ∧
    ((feedPacket (fun _ => true) (demuxInit (fun _ => true) true true)
        (mkPkt true 0x100 7 [0x00, 0x00, 0x01])).1.pids
      (getPID (mkPkt true 0x100 7 [0x00, 0x00, 0x01]))).ts = [] ∧
    (feedPacket (fun _ => true) (demuxInit (fun _ => true) true true)
        (mkPkt true 0x100 7 [0x00, 0x00, 0x01])).2 = [] :=
  C6_pes_rejection (fun _ => true) (demuxInit (fun _ => true) true true)
    (mkPkt true 0x100 7 [0x00, 0x00, 0x01]) rfl rfl rfl rfl (by decide)
    (by decide) (by decide) (by decide) (Or.inr (Or.inl rfl))

/-! ### Scrambler plugin (tsplugin_scrambler.cpp)

The crypto-period machinery of ScramblerPlugin. The state slice below
carries the two CryptoPeriod slots, the rotation indices and clocks, the
degraded-mode flag and the scrambling key (represented by the control
word it was initialized from; the DVB-CSA preprocessing of tsScrambling
is outside src/ and irrelevant to the claims). The asynchronous ECMG is
modelled by events: generateECM drops the ready flag, and a later
handleECM event delivers the packetized ECM and raises it. -/

def CW_BYTES : Nat := 8

/-- Modelled from the spec: PacketDistance (tsMPEG.h, not under src/)
converts a duration in milliseconds at a given bitrate into a packet
count: pkt_distance(bitrate, millis) = bitrate * millis / (8 * PKT_SIZE * 1000)
(spec §4.2), applied to the magnitude of the duration — the spec writes
pkt_distance(bitrate, |delay_start|) at every use on a signed duration,
and the scrambler relies on the resulting distance being nonnegative
(negative delay_start values postpone, not rewind, the clocks). -/
def PacketDistance (bitrate : Nat) (duration : Int) : Nat :=
  bitrate * duration.natAbs / (8 * PKT_SIZE * 1000)

/-- Embedding of the delay_start validation in ScramblerPlugin::start
(lines 512-518): clamp the ECMG-returned delay_start into
[-cp_duration/2, +cp_duration/2]. -/
def clampDelayStart (cp_duration : Nat) (delay_start : Int) : Int :=
  if delay_start > (cp_duration : Int) / 2 then (cp_duration : Int) / 2
  else if delay_start < -((cp_duration : Int) / 2) then -((cp_duration : Int) / 2)
  else delay_start

/-- Embedding of the crypto-period scheduling at the end of
ScramblerPlugin::processPMT (lines 744-754), reached in ECM generation
mode with a known nonzero bitrate: returns
(pkt_insert_ecm, pkt_change_cw, pkt_change_ecm). -/
def schedulePMT (packet_count ts_bitrate cp_duration : Nat) (delay_start : Int) :
    Nat × Nat × Nat :=
  let pkt_insert_ecm := packet_count
  let pkt_change_cw := packet_count + PacketDistance ts_bitrate (cp_duration : Int)
  let pkt_change_ecm :=
    if delay_start > 0 then pkt_change_cw + PacketDistance ts_bitrate delay_start
    else pkt_change_cw - PacketDistance ts_bitrate delay_start
  (pkt_insert_ecm, pkt_change_cw, pkt_change_ecm)

/-- Embedding of the reserved-PID presetting in ScramblerPlugin::start
(lines 538-543): the null PID plus every pid with pid < 0x001F. The loop
bound excludes PID 0x001F itself. -/
def initialInputPids : Nat → Bool := fun pid =>
  decide (pid < 0x001F) || decide (pid = PID_NULL)

/-- Embedding of the ECM PID allocation loop in ScramblerPlugin::processPMT
(lines 693-699): starting at pid, advance while the pid is below PID_NULL
and already claimed; the resulting pid is the allocation (PID_NULL means
failure and aborts). The fuel only bounds the recursion and is chosen
large enough to scan the whole PID space. -/
def allocateEcmPidFrom (input_pids : Nat → Bool) (fuel pid : Nat) : Nat :=
  match fuel with
  | 0 => pid
  | fuel + 1 =>
    if pid < PID_NULL ∧ input_pids pid = true then
      allocateEcmPidFrom input_pids fuel (pid + 1)
    else pid

/-- ECM PID allocation starting at pmt_pid + 1 (line 695). -/
def allocateEcmPid (input_pids : Nat → Bool) (pmt_pid : Nat) : Nat :=
  allocateEcmPidFrom input_pids (PID_NULL - pmt_pid) (pmt_pid + 1)

/-- One crypto-period slot (class CryptoPeriod, fields at lines 139-145):
crypto-period number, ECM-ready flag, the packetized ECM and its
insertion index, and the two control words. -/
structure CryptoPeriod where
  cp_number : Nat
  ecm_ok : Bool
  ecm : List (List Nat)
  ecm_pkt_index : Nat
  cw_current : List Nat
  cw_next : List Nat
  deriving Repr, DecidableEq

/-- A default-constructed CryptoPeriod (lines 980-989): zeroed period
number and control words, no ECM, not ready. -/
def CryptoPeriod.initDefault : CryptoPeriod :=
  { cp_number := 0, ecm_ok := false, ecm := [], ecm_pkt_index := 0,
    cw_current := List.replicate CW_BYTES 0, cw_next := List.replicate CW_BYTES 0 }

/-- CryptoPeriod::getScramblingControlValue (line 136): odd key when the
crypto-period number is odd, even key otherwise. -/
def getScramblingControlValue (cp : CryptoPeriod) : Nat :=
  if cp.cp_number &&& 0x01 ≠ 0 then SC_ODD_KEY else SC_EVEN_KEY

/-- CryptoPeriod::initCycle (lines 996-1003) followed by generateECM
(lines 1024-1058) in asynchronous mode, acting on a default-constructed
slot: draw two control words from the generator stream and drop the
ECM-ready flag; the ECM itself arrives later through handleECM. Returns
the slot and the new generator position. -/
def initCycle (gen : Nat → List Nat) (pos cp_number : Nat) : CryptoPeriod × Nat :=
  ({ cp_number := cp_number, ecm_ok := false, ecm := [], ecm_pkt_index := 0,
     cw_current := gen pos, cw_next := gen (pos + 1) }, pos + 2)

/-- CryptoPeriod::initNext (lines 1010-1017) followed by generateECM in
asynchronous mode, re-arming slot target from slot previous: the period
number is previous + 1, the current control word is the previous next
one, a fresh next control word is drawn, and the ready flag drops; the
old packetized ECM stays in place until handleECM replaces it. -/
def initNext (gen : Nat → List Nat) (pos : Nat) (target previous : CryptoPeriod) :
    CryptoPeriod × Nat :=
  ({ target with
      cp_number := previous.cp_number + 1
      ecm_ok := false
      cw_current := previous.cw_next
      cw_next := gen pos }, pos + 1)

/-- CryptoPeriod::handleECM (lines 1065-1099), abstracted over the
packetization of the ECM response: store the packets, reset the insertion
index, and set the ready flag last. -/
def handleECMSlot (cp : CryptoPeriod) (packets : List (List Nat)) : CryptoPeriod :=
  { cp with ecm := packets, ecm_pkt_index := 0, ecm_ok := true }

/-- The slot-advance performed by CryptoPeriod::getNextECMPacket
(lines 1106-1125) on the slot's own state: nothing without a ready
non-empty ECM, otherwise move to the next ECM packet cyclically. -/
def advanceECMPacket (cp : CryptoPeriod) : CryptoPeriod :=
  if cp.ecm_ok = false ∨ cp.ecm.length = 0 then cp
  else if cp.ecm.length ≤ cp.ecm_pkt_index + 1 then { cp with ecm_pkt_index := 0 }
  else { cp with ecm_pkt_index := cp.ecm_pkt_index + 1 }

/-- The crypto-period state slice of ScramblerPlugin (fields at lines
183-204): the two slots, rotation indices, degraded flag, scrambling key
(the control word _current_key was initialized from), rotation clocks,
packet counter, bitrate, crypto-period duration, clamped delay_start,
and the control-word generator modelled as a stream with a position. -/
structure ScramblerState where
  cp0 : CryptoPeriod
  cp1 : CryptoPeriod
  current_cw : Nat
  current_ecm : Nat
  degraded_mode : Bool
  current_key : List Nat
  pkt_change_cw : Nat
  pkt_change_ecm : Nat
  packet_count : Nat
  ts_bitrate : Nat
  cp_duration : Nat
  delay_start : Int
  cw_gen : Nat → List Nat
  cw_gen_pos : Nat

/-- The two-slot array _cp indexed by 0 or 1. -/
def slot (s : ScramblerState) (i : Nat) : CryptoPeriod :=
  if i = 0 then s.cp0 else s.cp1

/-- Writing back one slot of the _cp array. -/
def setSlot (s : ScramblerState) (i : Nat) (cp : CryptoPeriod) : ScramblerState :=
  if i = 0 then { s with cp0 := cp } else { s with cp1 := cp }

/-- currentCW() (line 207). -/
def currentCW (s : ScramblerState) : CryptoPeriod := slot s s.current_cw

/-- nextCW() (line 208). -/
def nextCW (s : ScramblerState) : CryptoPeriod := slot s ((s.current_cw + 1) &&& 0x01)

/-- currentECM() (line 209). -/
def currentECM (s : ScramblerState) : CryptoPeriod := slot s s.current_ecm

/-- nextECM() (line 210). -/
def nextECM (s : ScramblerState) : CryptoPeriod := slot s ((s.current_ecm + 1) &&& 0x01)

/-- ScramblerPlugin::inDegradedMode (lines 762-777): already degraded
stays degraded; otherwise degraded mode is entered exactly when the next
ECM is not ready. Returns the answer and the possibly updated state. -/
def inDegradedMode (s : ScramblerState) : Bool × ScramblerState :=
  if s.degraded_mode then (true, s)
  else if (nextECM s).ecm_ok then (false, s)
  else (true, { s with degraded_mode := true })

/-- ScramblerPlugin::changeCW (lines 820-835): when not in degraded mode,
toggle the CW slot index, install the new slot's control word as the
scrambling key, reschedule the next CW change one crypto-period away,
and re-arm the next slot when the ECM index has caught up with the CW
index. -/
def changeCW (s : ScramblerState) : ScramblerState :=
  let r := inDegradedMode s
  if r.1 then r.2
  else
    let s1 := { r.2 with current_cw := (r.2.current_cw + 1) &&& 0x01 }
    let s2 := { s1 with current_key := (currentCW s1).cw_current }
    let s3 := { s2 with
      pkt_change_cw := s2.packet_count + PacketDistance s2.ts_bitrate (s2.cp_duration : Int) }
    if s3.current_ecm = s3.current_cw then
      let t := initNext s3.cw_gen s3.cw_gen_pos (nextCW s3) (currentCW s3)
      { setSlot s3 ((s3.current_cw + 1) &&& 0x01) t.1 with cw_gen_pos := t.2 }
    else s3

/-- ScramblerPlugin::changeECM (lines 837-850): when not in degraded
mode, toggle the ECM slot index, reschedule the next ECM change one
crypto-period away, and re-arm the next slot when the indices coincide. -/
def changeECM (s : ScramblerState) : ScramblerState :=
  let r := inDegradedMode s
  if r.1 then r.2
  else
    let s1 := { r.2 with current_ecm := (r.2.current_ecm + 1) &&& 0x01 }
    let s3 := { s1 with
      pkt_change_ecm := s1.packet_count + PacketDistance s1.ts_bitrate (s1.cp_duration : Int) }
    if s3.current_ecm = s3.current_cw then
      let t := initNext s3.cw_gen s3.cw_gen_pos (nextCW s3) (currentCW s3)
      { setSlot s3 ((s3.current_cw + 1) &&& 0x01) t.1 with cw_gen_pos := t.2 }
    else s3

/-- ScramblerPlugin::tryExitDegradedMode (lines 784-813): leave degraded
mode once the next ECM is ready, then rotate according to the sign of
delay_start and reschedule the other clock pkt_distance(|delay_start|)
packets away. -/
def tryExitDegradedMode (s : ScramblerState) : ScramblerState :=
  if s.degraded_mode = false then s
  else if (nextECM s).ecm_ok = false then s
  else
    let s1 := { s with degraded_mode := false }
    if s1.delay_start < 0 then
      let s2 := changeECM s1
      { s2 with pkt_change_cw := s2.packet_count + PacketDistance s2.ts_bitrate s2.delay_start }
    else
      let s2 := changeCW s1
      { s2 with pkt_change_ecm := s2.packet_count + PacketDistance s2.ts_bitrate s2.delay_start }

/-- The scrambling_control value written into an encrypted packet by
ScramblerPlugin::processPacket (lines 963-970): the even key with a
fixed control word, otherwise the current CW slot decides from its
crypto-period number. -/
def appliedScramblingControl (use_fixed_key : Bool) (s : ScramblerState) : Nat :=
  if use_fixed_key then SC_EVEN_KEY else getScramblingControlValue (currentCW s)

/-- The crypto-period startup in ScramblerPlugin::start (lines 525-531):
both indices at slot 0, cp[0].initCycle(0), the key taken from cp[0],
cp[1].initNext(cp[0]); clocks start at zero (set later by processPMT). -/
def startScrambler (gen : Nat → List Nat) (bitrate cp_duration : Nat)
    (delay_start : Int) : ScramblerState :=
  let c0 := initCycle gen 0 0
  let c1 := initNext gen c0.2 CryptoPeriod.initDefault c0.1
  { cp0 := c0.1, cp1 := c1.1, current_cw := 0, current_ecm := 0,
    degraded_mode := false, current_key := c0.1.cw_current,
    pkt_change_cw := 0, pkt_change_ecm := 0, packet_count := 0,
    ts_bitrate := bitrate, cp_duration := cp_duration,
    delay_start := delay_start, cw_gen := gen, cw_gen_pos := c1.2 }

/-- States of the crypto-period machinery reachable from startup: closed
under CW/ECM rotations, degraded-mode exit, asynchronous ECM delivery on
either slot, ECM packet emission, and packet/bitrate bookkeeping. -/
inductive Reachable : ScramblerState → Prop where
  | start (gen : Nat → List Nat) (bitrate cp_duration : Nat) (delay_start : Int) :
      Reachable (startScrambler gen bitrate cp_duration delay_start)
  | stepCW {s : ScramblerState} : Reachable s → Reachable (changeCW s)
  | stepECM {s : ScramblerState} : Reachable s → Reachable (changeECM s)
  | stepExit {s : ScramblerState} : Reachable s → Reachable (tryExitDegradedMode s)
  | ecmArrive0 {s : ScramblerState} (packets : List (List Nat)) : Reachable s →
      Reachable { s with cp0 := handleECMSlot s.cp0 packets }
  | ecmArrive1 {s : ScramblerState} (packets : List (List Nat)) : Reachable s →
      Reachable { s with cp1 := handleECMSlot s.cp1 packets }
  | emitECM {s : ScramblerState} : Reachable s →
      Reachable (setSlot s s.current_ecm (advanceECMPacket (currentECM s)))
  | tick {s : ScramblerState} (bitrate : Nat) : Reachable s →
      Reachable { s with packet_count := s.packet_count + 1, ts_bitrate := bitrate }


/-! ### Claim C1: ECM change clock at PMT time -/

/-- Monotonicity of the packet-distance conversion in the duration. -/
theorem PacketDistance_mono (bitrate : Nat) (d1 d2 : Int)
    (h : d1.natAbs ≤ d2.natAbs) :
    PacketDistance bitrate d1 ≤ PacketDistance bitrate d2 :=
  Nat.div_le_div_right (Nat.mul_le_mul_left bitrate h)

/-- Claim C1: on entering Scrambling at PMT processing, the next-ECM
clock is pkt_change_cw plus pkt_distance(bitrate, |delay_start|) when
delay_start > 0 and pkt_change_cw minus that distance when
delay_start ≤ 0, for every delay_start in the clamped range
[-cp_duration/2, +cp_duration/2]; in the minus case the subtraction is
exact (the distance never exceeds pkt_change_cw). PacketDistance applies
the magnitude of its duration, so PacketDistance ts_bitrate delay_start
is pkt_distance(bitrate, |delay_start|). -/
theorem C1_ecm_change_clock (packet_count ts_bitrate cp_duration : Nat)
    (delay_start : Int)
    (hbr : ts_bitrate ≠ 0)
    (hlo : -((cp_duration : Int) / 2) ≤ delay_start)
    (hhi : delay_start ≤ (cp_duration : Int) / 2) :
    (0 < delay_start →
      (schedulePMT packet_count ts_bitrate cp_duration delay_start).2.2 =
        (schedulePMT packet_count ts_bitrate cp_duration delay_start).2.1 +
          PacketDistance ts_bitrate delay_start) ∧
    (delay_start ≤ 0 →
      (schedulePMT packet_count ts_bitrate cp_duration delay_start).2.2 +
          PacketDistance ts_bitrate delay_start =
        (schedulePMT packet_count ts_bitrate cp_duration delay_start).2.1) := by
  have habs : delay_start.natAbs ≤ (cp_duration : Int).natAbs := by omega
  have hle : PacketDistance ts_bitrate delay_start ≤
      PacketDistance ts_bitrate (cp_duration : Int) :=
    PacketDistance_mono ts_bitrate delay_start (cp_duration : Int) habs
  unfold schedulePMT
  dsimp only []
  constructor
  · intro h
    rw [if_pos h]
  · intro h
    rw [if_neg (by omega)]
    omega

/-- Witness for C1_ecm_change_clock: cp_duration 10000 ms, bitrate
10 Mb/s, delay_start -500 ms (inside the clamped range). -/
theorem C1_ecm_change_clock_witness :
    (schedulePMT 0 10000000 10000 (-500)).2.2 +
        PacketDistance 10000000 (-500) =
      (schedulePMT 0 10000000 10000 (-500)).2.1 :=
  (C1_ecm_change_clock 0 10000000 10000 (-500) (by decide) (by decide)
    (by decide)).2 (by decide)

/-! ### Claim C2: ECM PID allocation and reserved PIDs -/

/-- Claim C2 failing input: with the PMT on PID 0x001E and no other
claimed input PIDs, the auto-allocation returns PID 0x001F, which lies
in the reserved range 0x0000-0x001F that the spec forbids for ECM use.
The preset loop in start() (line 541) runs for pid < 0x001F and so never
marks 0x001F as reserved: initialInputPids 0x001F is false. -/
theorem C2_reserved_pid_allocated :
    allocateEcmPid initialInputPids 0x001E = 0x001F ∧
    initialInputPids 0x001F = false ∧
    initialInputPids 0x001E = true := by
  refine ⟨?_, by decide, by decide⟩
  decide


/-! ### Claim C5: degraded mode -/

/-- Claim C5: at a rotation point (a call to changeCW or changeECM),
degraded mode is entered if and only if the next ECM slot's ready flag
is false; and while degraded mode holds, changeCW and changeECM are
complete no-ops (the state, in particular current_cw, current_ecm and
the scrambling key, is unchanged). -/
theorem C5_degraded_mode (s : ScramblerState) :
    (s.degraded_mode = true → changeCW s = s ∧ changeECM s = s) ∧
    (s.degraded_mode = false →
      ((changeCW s).degraded_mode = true ↔ (nextECM s).ecm_ok = false) ∧
      ((changeECM s).degraded_mode = true ↔ (nextECM s).ecm_ok = false)) := by
  constructor
  · intro h
    constructor <;> simp [changeCW, changeECM, inDegradedMode, h]
  · intro h
    constructor <;>
      · cases hok : (nextECM s).ecm_ok
        all_goals simp only [changeCW, changeECM, inDegradedMode, h, hok,
          if_false, if_true, Bool.false_eq_true, Bool.true_eq_false]
        all_goals repeat' split
        all_goals simp_all [setSlot]
        all_goals repeat' split
        all_goals simp_all


/-- Witness for C5_degraded_mode: at the startup state (whose next ECM
is not yet ready) a CW rotation point enters degraded mode, and in a
degraded state changeCW is a no-op. -/
theorem C5_degraded_mode_witness :
    (changeCW { startScrambler (fun _ => List.replicate CW_BYTES 1) 1000000 10000 0 with
        degraded_mode := true } =
      { startScrambler (fun _ => List.replicate CW_BYTES 1) 1000000 10000 0 with
        degraded_mode := true }) ∧
    (changeCW (startScrambler (fun _ => List.replicate CW_BYTES 1) 1000000 10000 0)).degraded_mode
      = true :=
  ⟨((C5_degraded_mode _).1 rfl).1,
    ((C5_degraded_mode (startScrambler (fun _ => List.replicate CW_BYTES 1)
        1000000 10000 0)).2 rfl).1.mpr rfl⟩

/-! ### Claim C7: scrambling control parity -/

/-- The invariant tying the two-slot array to the rotation indices: the
slot at index i always holds a crypto-period whose number has parity i,
and both indices stay below 2. -/
def SlotParityInv (s : ScramblerState) : Prop :=
  s.cp0.cp_number % 2 = 0 ∧ s.cp1.cp_number % 2 = 1 ∧
  s.current_cw < 2 ∧ s.current_ecm < 2

set_option maxHeartbeats 4000000 in
/-- changeCW preserves the slot parity invariant. -/
theorem changeCW_parity {s : ScramblerState} (h : SlotParityInv s) :
    SlotParityInv (changeCW s) := by
  obtain ⟨h0, h1, hcw, hecm⟩ := h
  unfold changeCW inDegradedMode initNext setSlot currentCW nextCW
  unfold slot
  dsimp only []
  repeat' split
  all_goals refine ⟨?_, ?_, ?_, ?_⟩
  all_goals simp_all [Nat.and_one_is_mod]
  all_goals omega

set_option maxHeartbeats 4000000 in
/-- changeECM preserves the slot parity invariant. -/
theorem changeECM_parity {s : ScramblerState} (h : SlotParityInv s) :
    SlotParityInv (changeECM s) := by
  obtain ⟨h0, h1, hcw, hecm⟩ := h
  unfold changeECM inDegradedMode initNext setSlot currentCW nextCW
  unfold slot
  dsimp only []
  repeat' split
  all_goals refine ⟨?_, ?_, ?_, ?_⟩
  all_goals simp_all [Nat.and_one_is_mod]
  all_goals omega

set_option maxHeartbeats 1000000 in
/-- Every reachable scrambler state satisfies the slot parity invariant:
slot 0 always carries even crypto-period numbers and slot 1 odd ones. -/
theorem reachable_slot_parity {s : ScramblerState} (h : Reachable s) :
    SlotParityInv s := by
  induction h with
  | start gen bitrate cp_duration delay_start =>
    refine ⟨?_, ?_, ?_, ?_⟩ <;>
      simp [startScrambler, initCycle, initNext, CryptoPeriod.initDefault]
  | stepCW hr ih => exact changeCW_parity ih
  | stepECM hr ih => exact changeECM_parity ih
  | stepExit hr ih =>
    unfold tryExitDegradedMode
    dsimp only []
    repeat' split
    all_goals first
      | exact ih
      | exact changeECM_parity ih
      | exact changeCW_parity ih
  | ecmArrive0 packets hr ih =>
    obtain ⟨h0, h1, hcw, hecm⟩ := ih
    exact ⟨by simpa [handleECMSlot] using h0, by simpa [handleECMSlot] using h1, hcw, hecm⟩
  | ecmArrive1 packets hr ih =>
    obtain ⟨h0, h1, hcw, hecm⟩ := ih
    exact ⟨by simpa [handleECMSlot] using h0, by simpa [handleECMSlot] using h1, hcw, hecm⟩
  | emitECM hr ih =>
    obtain ⟨h0, h1, hcw, hecm⟩ := ih
    unfold setSlot advanceECMPacket currentECM
    unfold slot
    repeat' split
    all_goals exact ⟨by simp_all, by simp_all, hcw, hecm⟩
  | tick bitrate hr ih =>
    obtain ⟨h0, h1, hcw, hecm⟩ := ih
    exact ⟨h0, h1, hcw, hecm⟩

/-- Claim C7: for every reachable scrambler state, the scrambling controlapplied to an encrypted packet is odd (3) exactly when current_cw = 1 and
even (2) when current_cw = 0, and in fixed-key mode it is always even
(2): the slot parity invariant makes the crypto-period parity of the
current slot coincide with the slot index. -/
theorem C7_scrambling_control (use_fixed_key : Bool) (s : ScramblerState)
    (h : Reachable s) :
    appliedScramblingControl use_fixed_key s =
      if use_fixed_key = true then SC_EVEN_KEY
      else if s.current_cw = 1 then SC_ODD_KEY else SC_EVEN_KEY := by
  obtain ⟨h0, h1, hcw, hecm⟩ := reachable_slot_parity h
  unfold appliedScramblingControl getScramblingControlValue currentCW
  unfold slot
  cases use_fixed_key
  · have h2 : s.current_cw = 0 ∨ s.current_cw = 1 := by omega
    rcases h2 with h2 | h2 <;>
      simp_all [Nat.and_one_is_mod]
  · simp

/-- Witness for C7_scrambling_control at the reachable startup state
(current_cw = 0, even key 2). -/
theorem C7_scrambling_control_witness :
    appliedScramblingControl false
        (startScrambler (fun _ => List.replicate CW_BYTES 1) 1000000 10000 0)
      = SC_EVEN_KEY := by
  have h := C7_scrambling_control false
    (startScrambler (fun _ => List.replicate CW_BYTES 1) 1000000 10000 0)
    (Reachable.start ..)
  simpa [startScrambler] using h


/-! ### Claim C3: CRC validation and handler delivery -/

/-- Every stored slot of a section list holds a CRC-valid section. -/
def sectsValid (crc : List Nat → Bool) (l : List (Option (List Nat))) : Prop :=
  ∀ ob ∈ l, ∀ b, ob = some b → sectionValid crc b = true

/-- Every section stored in a TID-context map is CRC-valid. -/
def tidsValid (crc : List Nat → Bool) (tids : ETID → ETIDContext) : Prop :=
  ∀ etid, sectsValid crc (tids etid).sects

/-- Every section stored anywhere in the demux is CRC-valid. -/
def demuxStoredValid (crc : List Nat → Bool) (s : DemuxState) : Prop :=
  ∀ pid, tidsValid crc (s.pids pid).tids

/-- Every handler invocation in a trace carries only CRC-valid sections:
sections passed to the section handler are valid, and every stored slot
of a table passed to the table handler is valid. -/
def eventsValid (crc : List Nat → Bool) (evs : List DemuxEvent) : Prop :=
  ∀ e ∈ evs,
    (∀ pid b f l, e = DemuxEvent.section pid b f l → sectionValid crc b = true) ∧
    (∀ pid sl, e = DemuxEvent.table pid sl → sectsValid crc sl)

theorem eventsValid_nil (crc : List Nat → Bool) : eventsValid crc [] := by
  intro e he
  simp at he

theorem sectsValid_replicate (crc : List Nat → Bool) (n : Nat) :
    sectsValid crc (List.replicate n none) := by
  intro ob hob b hb
  rw [List.eq_of_mem_replicate hob] at hb
  cases hb

theorem sectsValid_set (crc : List Nat → Bool) {l : List (Option (List Nat))}
    (hl : sectsValid crc l) {b : List Nat} (hb : sectionValid crc b = true)
    (n : Nat) : sectsValid crc (l.set n (some b)) := by
  intro ob hob b2 hb2
  rcases List.mem_or_eq_of_mem_set hob with h | h
  · exact hl ob h b2 hb2
  · rw [h] at hb2
    cases hb2
    exact hb

theorem tidsValid_update (crc : List Nat → Bool) {tids : ETID → ETIDContext}
    (ht : tidsValid crc tids) {tc : ETIDContext}
    (htc : sectsValid crc tc.sects) (etid : ETID) :
    tidsValid crc (Function.update tids etid tc) := by
  intro e
  rcases eq_or_ne e etid with h | h
  · rw [h, Function.update_same]
    exact htc
  · rw [Function.update_noteq h]
    exact ht e

theorem eventsValid_append_section (crc : List Nat → Bool)
    {evs : List DemuxEvent} (he : eventsValid crc evs) {b : List Nat}
    (hb : sectionValid crc b = true) (pid f l : Nat) :
    eventsValid crc (evs ++ [DemuxEvent.section pid b f l]) := by
  intro e hmem
  rcases List.mem_append.1 hmem with h | h
  · exact he e h
  · rw [List.mem_singleton.1 h]
    constructor
    · intro pid2 b2 f2 l2 heq
      cases heq
      exact hb
    · intro pid2 sl heq
      cases heq

theorem eventsValid_append_table (crc : List Nat → Bool)
    {evs : List DemuxEvent} (he : eventsValid crc evs)
    {sl : List (Option (List Nat))} (hsl : sectsValid crc sl) (pid : Nat) :
    eventsValid crc (evs ++ [DemuxEvent.table pid sl]) := by
  intro e hmem
  rcases List.mem_append.1 hmem with h | h
  · exact he e h
  · rw [List.mem_singleton.1 h]
    constructor
    · intro pid2 b2 f2 l2 heq
      cases heq
    · intro pid2 sl2 heq
      cases heq
      exact hsl

set_option maxHeartbeats 4000000 in
/-- The accepted-section path preserves stored-section validity and only
emits handler events carrying CRC-valid sections: a Section object is
always constructed (and so CRC-checked) before being passed to the
section handler or stored into a slot. -/
theorem sectionAccept_valid (crc : List Nat → Bool) (has_sh has_th : Bool)
    (pid packet_count : Nat) (tids : ETID → ETIDContext)
    (status1 : DemuxStatus) (events : List DemuxEvent) (pusi_idx : Nat)
    (sectBytes : List Nat) (etid : ETID)
    (version section_number last_section_number : Nat) (long_header : Bool)
    (ht : tidsValid crc tids) (he : eventsValid crc events) :
    tidsValid crc (sectionAccept crc has_sh has_th pid packet_count tids
        status1 events pusi_idx sectBytes etid version section_number
        last_section_number long_header).1 ∧
    eventsValid crc (sectionAccept crc has_sh has_th pid packet_count tids
        status1 events pusi_idx sectBytes etid version section_number
        last_section_number long_header).2.2 := by
  unfold sectionAccept
  dsimp only []
  repeat' split
  all_goals first
    | (refine ⟨tidsValid_update crc ht ?_ _, he⟩
       dsimp only []
       first
       | exact sectsValid_replicate crc (last_section_number + 1)
       | exact ht etid)
    | (have hsv : sectionValid crc sectBytes = true := by
         cases hv : sectionValid crc sectBytes
         · exfalso
           clear ht he
           simp_all
         · rfl
       refine ⟨tidsValid_update crc ht ?_ _, ?_⟩
       · dsimp only []
         first
         | exact sectsValid_replicate crc (last_section_number + 1)
         | exact ht etid
         | (refine sectsValid_set crc ?_ hsv section_number
            first
            | exact sectsValid_replicate crc (last_section_number + 1)
            | exact ht etid)
       · dsimp only []
         first
         | exact he
         | exact eventsValid_append_section crc he hsv pid pusi_idx packet_count
         | (refine eventsValid_append_table crc he ?_ pid
            dsimp only []
            refine sectsValid_set crc ?_ hsv section_number
            first
            | exact sectsValid_replicate crc (last_section_number + 1)
            | exact ht etid)
         | (refine eventsValid_append_table crc
              (eventsValid_append_section crc he hsv pid pusi_idx packet_count) ?_ pid
            dsimp only []
            refine sectsValid_set crc ?_ hsv section_number
            first
            | exact sectsValid_replicate crc (last_section_number + 1)
            | exact ht etid))


set_option maxHeartbeats 4000000 in
/-- The per-section analysis preserves stored-section validity and emits
only CRC-valid sections. -/
theorem sectionAnalyze_valid (crc : List Nat → Bool) (has_sh has_th : Bool)
    (pid packet_count : Nat) (buf : List Nat) (tids : ETID → ETIDContext)
    (status : DemuxStatus) (events : List DemuxEvent)
    (pusi_idx start section_length : Nat) (long_header clip : Bool)
    (ht : tidsValid crc tids) (he : eventsValid crc events) :
    tidsValid crc (sectionAnalyze crc has_sh has_th pid packet_count buf tids
        status events pusi_idx start section_length long_header clip).1 ∧
    eventsValid crc (sectionAnalyze crc has_sh has_th pid packet_count buf
        tids status events pusi_idx start section_length long_header clip).2.2 := by
  unfold sectionAnalyze
  dsimp only []
  repeat' split
  all_goals first
    | exact ⟨ht, he⟩
    | exact sectionAccept_valid _ _ _ _ _ _ _ _ _ _ _ _ _ _ _ ht he

set_option maxHeartbeats 4000000 in
/-- The section extraction loop preserves stored-section validity and
emits only CRC-valid sections. -/
theorem sectionLoop_valid (crc : List Nat → Bool) (has_sh has_th : Bool)
    (pid packet_count : Nat) (pusi_section : Option Nat) (buf : List Nat)
    (fuel : Nat) (tids : ETID → ETIDContext) (status : DemuxStatus)
    (events : List DemuxEvent) (pusi_idx start size : Nat)
    (ht : tidsValid crc tids) (he : eventsValid crc events) :
    tidsValid crc (sectionLoop crc has_sh has_th pid packet_count pusi_section
        buf fuel tids status events pusi_idx start size).tids ∧
    eventsValid crc (sectionLoop crc has_sh has_th pid packet_count
        pusi_section buf fuel tids status events pusi_idx start size).events := by
  induction fuel generalizing tids status events pusi_idx start size with
  | zero => exact ⟨ht, he⟩
  | succ n ih =>
    rw [sectionLoop]
    dsimp only []
    repeat' split
    all_goals first
      | exact ⟨ht, he⟩
      | exact ih _ _ _ _ _ _
          (sectionAnalyze_valid _ _ _ _ _ _ _ _ _ _ _ _ _ _ ht he).1
          (sectionAnalyze_valid _ _ _ _ _ _ _ _ _ _ _ _ _ _ ht he).2

theorem appendAndParse_valid (crc : List Nat → Bool) (has_sh has_th : Bool)
    (pid packet_count : Nat) (pusi : Bool) (pointer_field : Nat)
    (payload : List Nat) (payload_size pusi_idx : Nat)
    (pc : PIDContext) (status : DemuxStatus)
    (ht : tidsValid crc pc.tids) :
    tidsValid crc (appendAndParse crc has_sh has_th pid packet_count pusi
        pointer_field payload payload_size pusi_idx pc status).1.tids ∧
    eventsValid crc (appendAndParse crc has_sh has_th pid packet_count pusi
        pointer_field payload payload_size pusi_idx pc status).2.2 := by
  unfold appendAndParse
  dsimp only []
  repeat' split
  all_goals exact
    ⟨(sectionLoop_valid _ _ _ _ _ _ _ _ _ _ _ _ _ _ ht (eventsValid_nil crc)).1,
     (sectionLoop_valid _ _ _ _ _ _ _ _ _ _ _ _ _ _ ht (eventsValid_nil crc)).2⟩

theorem processPayload_valid (crc : List Nat → Bool) (has_sh has_th : Bool)
    (pid packet_count : Nat) (pusi : Bool) (pointer_field : Nat)
    (payload : List Nat) (payload_size pusi_idx : Nat)
    (pc : PIDContext) (status : DemuxStatus)
    (ht : tidsValid crc pc.tids) :
    tidsValid crc (processPayload crc has_sh has_th pid packet_count pusi
        pointer_field payload payload_size pusi_idx pc status).1.tids ∧
    eventsValid crc (processPayload crc has_sh has_th pid packet_count pusi
        pointer_field payload payload_size pusi_idx pc status).2.2 := by
  unfold processPayload
  repeat' split
  all_goals first
    | exact ⟨ht, eventsValid_nil crc⟩
    | exact appendAndParse_valid _ _ _ _ _ _ _ _ _ _ _ _ ht

theorem tidsValid_pids_update (crc : List Nat → Bool) {pids : Nat → PIDContext}
    (h : ∀ p, tidsValid crc (pids p).tids) {pc : PIDContext}
    (hpc : tidsValid crc pc.tids) (pid : Nat) :
    ∀ p, tidsValid crc ((Function.update pids pid pc) p).tids := by
  intro p
  rcases eq_or_ne p pid with hp | hp
  · rw [hp, Function.update_same]
    exact hpc
  · rw [Function.update_noteq hp]
    exact h p

set_option maxHeartbeats 4000000 in
/-- processPacket preserves stored-section validity on every PID. -/
theorem processPacket_valid_pids (crc : List Nat → Bool) (s : DemuxState)
    (pkt : List Nat) (h : ∀ p, tidsValid crc ((s.pids p).tids)) (q : Nat) :
    tidsValid crc (((processPacket crc s pkt).pids q).tids) := by
  unfold processPacket
  dsimp only []
  repeat' split
  all_goals first
    | exact h q
    | (refine tidsValid_pids_update crc h ?_ _ q
       exact h (getPID pkt))
    | (refine tidsValid_pids_update crc h ?_ _ q
       refine (processPayload_valid _ _ _ _ _ _ _ _ _ _ _ _ ?_).1
       exact h (getPID pkt))

set_option maxHeartbeats 4000000 in
/-- processPacket only invokes handlers on CRC-valid sections, provided
the sections already stored are valid. -/
theorem processPacket_valid_events (crc : List Nat → Bool) (s : DemuxState)
    (pkt : List Nat) (h : ∀ p, tidsValid crc ((s.pids p).tids)) :
    eventsValid crc (processPacket crc s pkt).events := by
  unfold processPacket
  dsimp only []
  repeat' split
  all_goals first
    | exact eventsValid_nil crc
    | (refine (processPayload_valid _ _ _ _ _ _ _ _ _ _ _ _ ?_).2
       exact h (getPID pkt))


/-- A CRC model for the C3 counterexample: a 12-byte section is valid
exactly when its last byte is 0xAB. -/
def crcByte11 : List Nat → Bool := fun bs => bs.getD 11 0 == 0xAB

/-- A demux filtering PID 0x100 with a table handler but no section
handler. -/
def c3State : DemuxState := demuxInit (fun p => p == 0x100) false true

/-- A minimal long-form section (table id 0x42, extension 1, version 0,
single section) whose CRC is correct under crcByte11. -/
def c3SectA : List Nat :=
  [0x42, 0xB0, 0x09, 0x00, 0x01, 0x01, 0x00, 0x00, 0x10, 0x20, 0x30, 0xAB]

/-- The same long-form section with a corrupted CRC byte. -/
def c3SectB : List Nat :=
  [0x42, 0xB0, 0x09, 0x00, 0x01, 0x01, 0x00, 0x00, 0x10, 0x20, 0x30, 0xCD]

def c3PktA : List Nat := mkPkt true 0x100 0 ([0x00] ++ c3SectA)

def c3PktB : List Nat := mkPkt true 0x100 1 ([0x00] ++ c3SectB)

/-- The demux after the valid section has been received and stored. -/
def c3Mid : DemuxState := (feedPacket crcByte11 c3State c3PktA).1

set_option maxRecDepth 16384 in
/-- Claim C3 counterexample: with no section handler registered, a
long-form section whose CRC is wrong but whose (table id, extension,
version, section number) slot is already filled is never CRC-checked:
wrong_crc stays 0 and no handler runs - CRC validation is not attempted
on every long-form section parsed. Feeding the same packet with a section
handler registered does increment wrong_crc, showing that the section is
otherwise fully parsed and reaches the CRC check. -/
theorem C3_bad_crc_not_counted :
    sectionValid crcByte11 c3SectB = false ∧
    (feedPacket crcByte11 c3Mid c3PktB).1.status.wrong_crc = 0 ∧
    (feedPacket crcByte11 c3Mid c3PktB).2 = [] ∧
    (feedPacket crcByte11 { c3Mid with has_section_handler := true }
        c3PktB).1.status.wrong_crc = 1 := by
  refine ⟨by decide, by decide, by decide, by decide⟩

/-- Claim C3 (amended): assuming every section already stored in the
demux is CRC-valid (true of a fresh demux), no long-form section with an
invalid CRC32 is ever passed to the section handler or included in a
table passed to the table handler, and the stored-validity invariant is
preserved by every packet. However, CRC32 validation is only attempted
when a Section object is constructed - that is, when a section handler
is registered or the section's slot is still empty - and wrong_crc is
incremented exactly on those failed checks: a bad-CRC duplicate of an
already stored section is not checked and not counted. -/
theorem C3_crc_guard (crc : List Nat → Bool) (s : DemuxState) (pkt : List Nat)
    (h : demuxStoredValid crc s) :
    demuxStoredValid crc (feedPacket crc s pkt).1 ∧
    eventsValid crc (feedPacket crc s pkt).2 := by
  unfold feedPacket
  split
  · exact ⟨fun p => processPacket_valid_pids crc s pkt h p,
      processPacket_valid_events crc s pkt h⟩
  · exact ⟨h, eventsValid_nil crc⟩

/-- Witness for C3_crc_guard: a fresh demux (nothing stored) fed one
packet. -/
theorem C3_crc_guard_witness :
    demuxStoredValid (fun _ => true)
      (feedPacket (fun _ => true) (demuxInit (fun _ => true) true true)
        (mkPkt true 0x200 0 [0x00])).1 ∧
    eventsValid (fun _ => true)
      (feedPacket (fun _ => true) (demuxInit (fun _ => true) true true)
        (mkPkt true 0x200 0 [0x00])).2 :=
  C3_crc_guard (fun _ => true) (demuxInit (fun _ => true) true true)
    (mkPkt true 0x200 0 [0x00])
    (by
      intro p etid ob hob b hb
      simp [demuxInit, PIDContext.init, ETIDContext.init] at hob)

end Tsduck
